import Mathlib

/-!
Shallow embedding of the DarkWorldBot dice-pool engine
(`src/libs/roller.py`, `src/libs/macro.py`, `src/cogs/macro.py`,
`src/cogs/character.py`, `src/cogs/diceroller.py`).

Python strings are modelled as `List Char`; the random dice of
`roll_dice` are injected as an explicit list (deterministic roll
injection); the Willpower side effect is modelled by explicit state
passing of the current-Willpower integer.
-/

namespace DarkWorld

/-- Python strings are modelled as lists of characters. -/
abbrev Str := List Char

/-- Turn a Lean string literal into the `List Char` model. -/
def chars (s : String) : Str := s.toList

/-- Python `str.lower()` (ASCII, as used by the sources). -/
def lowerStr (s : Str) : Str := s.map Char.toLower

/-- Python `str.upper()` (ASCII, as used by the sources). -/
def upperStr (s : Str) : Str := s.map Char.toUpper

/-- Python's substring test `pat in s` (`True` when `pat` occurs as a
contiguous substring of `s`). -/
def containsSub (pat : Str) : Str → Bool
  | [] => pat.isEmpty
  | c :: rest => pat.isPrefixOf (c :: rest) || containsSub pat rest

/-- Worker for `removeSub`, structurally recursive on a fuel bound that
dominates the length of the remaining input (each step consumes at least
one source character). -/
def removeSubAux (pat : Str) : Nat → Str → Str
  | _, [] => []
  | 0, s => s
  | fuel + 1, c :: rest =>
    if pat ≠ [] ∧ pat.isPrefixOf (c :: rest) then
      removeSubAux pat fuel ((c :: rest).drop pat.length)
    else
      c :: removeSubAux pat fuel rest

/-- Python `s.replace(pat, "")` for a nonempty `pat`: removes the
non-overlapping occurrences of `pat` in one left-to-right pass over the
source, never rescanning the text produced by a removal. -/
def removeSub (pat : Str) (s : Str) : Str := removeSubAux pat s.length s

/-- Python `str.strip()`: drop whitespace from both ends. -/
def stripStr (s : Str) : Str :=
  ((s.dropWhile Char.isWhitespace).reverse.dropWhile Char.isWhitespace).reverse

-- ---------------------------------------------------------------------------
-- libs/roller.py, process_willpower (lines 83..104)
-- ---------------------------------------------------------------------------

/-- The check `"+WP" in roll_str.upper()` of `process_willpower`. -/
def hasWPMarker (s : Str) : Bool := containsSub (chars "+WP") (upperStr s)

/-- The cleaning chain of `process_willpower`:
`roll_str.replace("+WP","").replace("+wp","").replace("+Wp","").replace("+wP","").strip()`. -/
def cleanWP (s : Str) : Str :=
  stripStr (removeSub (chars "+wP")
    (removeSub (chars "+Wp") (removeSub (chars "+wp") (removeSub (chars "+WP") s))))

/-- Embedding of `process_willpower(roll_str, char)` from
`src/libs/roller.py` lines 83..104.  The character's mutable
`curr_willpower` field is passed and returned explicitly; `none` in the
first component models the raised `ValueError`, which in the source
happens before the decrement and the save, so the returned state is the
unchanged input state. -/
def processWillpower (s : Str) (wp : Int) : Option (Str × Bool) × Int :=
  if hasWPMarker s = false then (some (s, false), wp)
  else if wp < 1 then (none, wp)
  else (some (cleanWP s, true), wp - 1)

example : processWillpower (chars "Dexterity+WP") 2 =
    (some (chars "Dexterity", true), 1) := by decide

example : processWillpower (chars "Dexterity") 0 =
    (some (chars "Dexterity", false), 0) := by decide

example : processWillpower (chars "Dexterity+wp") 0 = (none, 0) := by decide

example : processWillpower (chars "+W+WPP") 5 =
    (some (chars "+WP", true), 4) := by decide

-- ---------------------------------------------------------------------------
-- libs/roller.py, roll_dice (lines 19..77)
-- ---------------------------------------------------------------------------

/-- Success contribution of one die in the counting loop of `roll_dice`:
`1` is skipped, a `10` with specialization counts 2, otherwise any value
at or above the difficulty counts 1. -/
def dieScore (spec : Bool) (difficulty : Int) (v : Int) : Nat :=
  if v = 1 then 0
  else if v = 10 ∧ spec = true then 2
  else if difficulty ≤ v then 1
  else 0

/-- The `total_successes` accumulated by the counting loop of
`roll_dice`.  The source iterates over the rolls sorted ascending, but
the sum is order independent. -/
def totalSuccesses (spec : Bool) (difficulty : Int) (rolls : List Int) : Nat :=
  rolls.foldl (fun acc v => acc + dieScore spec difficulty v) 0

/-- Count of dice that rolled a 1: `len(ones_idx)` of `roll_dice`. -/
def onesCount (rolls : List Int) : Nat := (rolls.filter (fun v => v = 1)).length

/-- Net successes: `final_suxx = max(0, total_successes - len(ones_idx))`
of `roll_dice`. -/
def finalSuxx (spec : Bool) (difficulty : Int) (rolls : List Int) : Int :=
  max 0 ((totalSuccesses spec difficulty rolls : Int) - (onesCount rolls : Int))

/-- Botch flag: `botch = total_successes == 0 and len(ones_idx) > 0` of
`roll_dice` — the source tests the pre-cancellation success count. -/
def isBotchFlag (spec : Bool) (difficulty : Int) (rolls : List Int) : Bool :=
  decide (totalSuccesses spec difficulty rolls = 0 ∧ 0 < onesCount rolls)

/-- Embedding of `roll_dice(pool, spec, difficulty, return_ones=True)`
from `src/libs/roller.py` lines 19..77 with the random draws injected as
the explicit list `rolls` (the source draws `pool` uniform integers in
`[1,10]`).  Returns `(final_suxx, botch, ones)`; the purely cosmetic
per-die display list built by the same function is elided. -/
def rollDice (spec : Bool) (difficulty : Int) (rolls : List Int) :
    Int × Bool × Nat :=
  (finalSuxx spec difficulty rolls, isBotchFlag spec difficulty rolls,
    onesCount rolls)

example : rollDice false 6 [1, 1, 4, 9, 10] = (0, false, 2) := by decide

example : rollDice true 6 [1, 1, 4, 9, 10] = (1, false, 2) := by decide

example : rollDice false 6 [1, 1, 4, 5, 2] = (0, true, 2) := by decide

-- ---------------------------------------------------------------------------
-- libs/character.py: the character aggregate consumed by the resolver
-- ---------------------------------------------------------------------------

/-- One trait record as produced by `Character.get_trait` /
`Character.get_dot_trait` in `src/libs/character.py`: a display name, a
dot value, and (for ability-style traits only) an optional
comma-separated specialization string. -/
structure TraitEntry where
  name : Str
  value : Int
  specs : Option Str
deriving DecidableEq, Repr

/-- The character fields read by the dice-pool engine
(`src/libs/character.py`): the six trait categories searched by
`get_character_value` — `abilities` is a dict of category lists, kept
here as a list of lists in the dict's insertion order — plus the
Willpower counters and the display name. -/
structure Character where
  name : Str
  attributes : List TraitEntry
  abilities : List (List TraitEntry)
  disciplines : List TraitEntry
  backgrounds : List TraitEntry
  virtues : List TraitEntry
  magic_paths : List TraitEntry
  curr_willpower : Int
  max_willpower : Int
deriving DecidableEq, Repr

-- ---------------------------------------------------------------------------
-- libs/macro.py, get_character_value (lines 197..255)
-- ---------------------------------------------------------------------------

/-- Python `s.split(",")`: split at every comma, keeping empty pieces. -/
def splitComma : Str → List Str
  | [] => [[]]
  | c :: rest =>
    if c = ',' then [] :: splitComma rest
    else
      match splitComma rest with
      | [] => [[c]]
      | r :: rs => (c :: r) :: rs

/-- The inner `check_entry` closure of `get_character_value`: `none`
when the entry does not settle this term; otherwise the entry's value
together with whether the supplied specialization matched.  A `spec`
argument is accepted only when the entry has a non-falsy specialization
string listing it (comma separated, compared stripped and lowered). -/
def checkEntry (traitLower : Str) (spec : Option Str) (e : TraitEntry) :
    Option (Int × Bool) :=
  if lowerStr e.name ≠ traitLower then none
  else
    match spec with
    | some sp =>
      match e.specs with
      | none => none
      | some sstr =>
        if sstr.isEmpty then none
        else
          let specsList := (splitComma sstr).map (fun x => lowerStr (stripStr x))
          if specsList.contains (lowerStr sp) then some (e.value, true) else none
    | none => some (e.value, false)

/-- First entry of the list that `check_entry` accepts, mirroring the
per-category `for` loops of `get_character_value`. -/
def scanEntries (traitLower : Str) (spec : Option Str) :
    List TraitEntry → Option (Int × Bool)
  | [] => none
  | e :: es =>
    match checkEntry traitLower spec e with
    | some r => some r
    | none => scanEntries traitLower spec es

/-- The search order of `get_character_value`: attributes, then every
abilities category in dict insertion order, then disciplines,
backgrounds, virtues and magic paths.  The source's six sequential
`for` loops with early return scan exactly this concatenation in
order. -/
def allEntries (char : Character) : List TraitEntry :=
  char.attributes ++ char.abilities.flatten ++ char.disciplines ++
    char.backgrounds ++ char.virtues ++ char.magic_paths

/-- Embedding of `get_character_value(char, trait_name, spec)` from
`src/libs/macro.py` lines 197..255: search the categories in order,
returning `(value, found, used_spec)` for the first entry that
`check_entry` accepts, and `(0, false, false)` when none does. -/
def getCharacterValue (char : Character) (traitName : Str)
    (spec : Option Str) : Int × Bool × Bool :=
  match scanEntries (lowerStr traitName) spec (allEntries char) with
  | some (v, u) => (v, true, u)
  | none => (0, false, false)

-- ---------------------------------------------------------------------------
-- libs/macro.py, sum_macro (lines 144..194)
-- ---------------------------------------------------------------------------

/-- Is this character a `+` or `-` operator? -/
def isSignChar (c : Char) : Bool := c = '+' ∨ c = '-'

/-- Worker for `findallTokens`, structurally recursive on a fuel bound
that dominates the length of the remaining input. -/
def findallTokensAux : Nat → Str → List Str
  | _, [] => []
  | 0, _ => []
  | fuel + 1, c :: rest =>
    if isSignChar c then
      let run := rest.takeWhile (fun d => !isSignChar d)
      if run.isEmpty then findallTokensAux fuel rest
      else (c :: run) :: findallTokensAux fuel (rest.drop run.length)
    else
      let run := (c :: rest).takeWhile (fun d => !isSignChar d)
      run :: findallTokensAux fuel ((c :: rest).drop run.length)

/-- Python `re.findall(r"[+-]?\s*[^+-]+", s)` as used by `sum_macro`
(and `format_roll_expression`): each match is an optional single sign
followed by a maximal nonempty run of non-sign characters; a sign not
followed by a non-sign character matches nothing and is skipped. -/
def findallTokens (s : Str) : List Str := findallTokensAux s.length s

/-- Python `re.fullmatch(r"\d+", t)`. -/
def isNum (t : Str) : Bool := !t.isEmpty && t.all Char.isDigit

/-- Python `int(t)` on a digit string. -/
def natOfDigits (t : Str) : Nat :=
  t.foldl (fun acc c => acc * 10 + (c.toNat - 48)) 0

/-- Python `re.match(r"([A-Za-z\s]+)(?:\[([^\]]+)\])?", token)` of
`sum_macro`: an initial maximal run of letters and whitespace, then an
optional bracketed specialization — present only when the run is
immediately followed by `[`, at least one non-`]` character, and a
closing `]`.  Trailing junk after the match is ignored, and a missing
closing bracket merely drops the optional group. -/
def matchTrait (t : Str) : Option (Str × Option Str) :=
  let run := t.takeWhile (fun c => c.isAlpha || c.isWhitespace)
  if run.isEmpty then none
  else
    match t.drop run.length with
    | '[' :: rest2 =>
      let sp := rest2.takeWhile (fun c => !(c = ']' : Bool))
      if sp.isEmpty then some (run, none)
      else if (rest2.drop sp.length).isEmpty then some (run, none)
      else some (run, some sp)
    | _ => some (run, none)

/-- The token loop of `sum_macro`: strip the token, skip it when empty,
peel one leading sign, then treat it as a number or as a trait term
looked up with `get_character_value`; an unparsable or unresolved term
returns the failure pair `(-1, false)` for the whole expression. -/
def sumTokens (char : Character) : List Str → Int → Bool → Int × Bool
  | [], total, usedSpec => (total, usedSpec)
  | t :: ts, total, usedSpec =>
    let t := stripStr t
    if t.isEmpty then sumTokens char ts total usedSpec
    else
      let signTok : Int × Str :=
        match t with
        | '+' :: r => (1, r)
        | '-' :: r => (-1, r)
        | _ => (1, t)
      let sign := signTok.1
      let tok := signTok.2
      if isNum tok then
        sumTokens char ts (total + sign * (natOfDigits tok : Int)) usedSpec
      else
        match matchTrait tok with
        | none => (-1, false)
        | some (run, sp) =>
          let res := getCharacterValue char (stripStr run) sp
          if res.2.1 then
            sumTokens char ts (total + sign * res.1) (usedSpec || res.2.2)
          else (-1, false)

/-- Embedding of `sum_macro(macro_str, char)` from `src/libs/macro.py`
lines 144..194: tokenize with the sign-preserving `re.findall` pattern
and fold the signed values, returning `(total, used_spec)` — note the
source returns exactly this pair, with no list of applied
specializations — or `(-1, false)` on an empty input or any unresolved
term. -/
def sumMacroExpr (macroStr : Str) (char : Character) : Int × Bool :=
  if macroStr.isEmpty then (-1, false)
  else sumTokens char (findallTokens macroStr) 0 false

-- ---------------------------------------------------------------------------
-- libs/roller.py, resolve_dice_pool (lines 110..120)
-- ---------------------------------------------------------------------------

/-- Python dict membership plus indexing for the macro table: the first
binding whose key equals the roll string exactly (case sensitively). -/
def lookupAssoc (k : Str) : List (Str × Str) → Option Str
  | [] => none
  | (k2, v) :: rest => if k2 = k then some v else lookupAssoc k rest

/-- Embedding of `resolve_dice_pool(roll_str, char)` from
`src/libs/roller.py` lines 110..120.  The macro table fetched there via
`get_character_macros(char.uuid)` is passed explicitly.  When the whole
roll string is a macro name the macro's expression is summed, otherwise
the roll string itself is; the returned value is whatever `sum_macro`
returns (a pair, despite the source's `Tuple[int, bool, List[str]]`
annotation). -/
def resolveDicePool (rollStr : Str) (char : Character)
    (macros : List (Str × Str)) : Int × Bool :=
  match lookupAssoc rollStr macros with
  | some expr => sumMacroExpr expr char
  | none => sumMacroExpr rollStr char

-- ---------------------------------------------------------------------------
-- Concrete characters used to evaluate the engine
-- ---------------------------------------------------------------------------

/-- Build a trait record from string literals. -/
def mkEntry (n : String) (v : Int) (sp : Option String) : TraitEntry :=
  ⟨chars n, v, sp.map chars⟩

/-- A character in the shape `get_all_data` produces: Dexterity 3 among
the attributes, Melee 2 with the single specialization `Swords` and
Athletics 2 among the abilities, current Willpower 5 of 5, and no trait
in any category named `Willpower`, `Willmax` or `Atk`. -/
def charA : Character where
  name := chars "Zayd"
  attributes := [mkEntry "Strength" 2 none, mkEntry "Dexterity" 3 none,
    mkEntry "Stamina" 2 none]
  abilities := [[mkEntry "Athletics" 2 none], [mkEntry "Melee" 2 (some "Swords")]]
  disciplines := [mkEntry "Celerity" 1 none]
  backgrounds := []
  virtues := [mkEntry "Courage" 3 none]
  magic_paths := []
  curr_willpower := 5
  max_willpower := 5

/-- A character whose Melee carries two specializations, `Swords` and
`Axes`. -/
def charB : Character where
  name := chars "Mira"
  attributes := [mkEntry "Dexterity" 3 none]
  abilities := [[mkEntry "Melee" 2 (some "Swords, Axes")]]
  disciplines := []
  backgrounds := []
  virtues := []
  magic_paths := []
  curr_willpower := 2
  max_willpower := 5

/-- The macro table `{Atk: Dexterity+Melee[Swords]}` of the C2 scenario. -/
def atkMacros : List (Str × Str) := [(chars "Atk", chars "Dexterity+Melee[Swords]")]

example : sumMacroExpr (chars "Dexterity+Melee[Swords]+2") charA = (7, true) := by
  decide

example : sumMacroExpr (chars "Atk+2") charA = (-1, false) := by decide

example : sumMacroExpr (chars "Dexterity-4") charA = (-1, false) := by decide

example : sumMacroExpr (chars "Melee[NonexistentSpec]") charA = (-1, false) := by
  decide

example : sumMacroExpr (chars "dexterity") charA = (3, false) := by decide

example : resolveDicePool (chars "Atk") charA atkMacros = (5, true) := by decide

-- ---------------------------------------------------------------------------
-- libs/macro.py, validate_expr (lines 22..57) and validate_macro (63..91)
-- ---------------------------------------------------------------------------

/-- Worker for `splitKeepSigns`: accumulate the current segment
(reversed) while walking the input. -/
def splitKeepSignsAux (cur : Str) : Str → List Str
  | [] => [cur.reverse]
  | c :: rest =>
    if isSignChar c then cur.reverse :: [c] :: splitKeepSignsAux [] rest
    else splitKeepSignsAux (c :: cur) rest

/-- Python `re.split(r"([+-])", s)`: segments between the operators,
with each operator kept as its own one-character piece and empty
segments preserved. -/
def splitKeepSigns (s : Str) : List Str := splitKeepSignsAux [] s

/-- Does a full string match `TOKEN_PATTERN` of `src/libs/macro.py`
(lines 8..16): `[A-Za-z_][A-Za-z0-9_]*` optionally followed by a
bracketed specialization `\[[^\[\]]+\]`, or a pure digit string. -/
def tokenMatches (t : Str) : Bool :=
  match t with
  | [] => false
  | c :: rest =>
    if t.all Char.isDigit then true
    else if c.isAlpha || c = '_' then
      let run := rest.takeWhile (fun d => d.isAlphanum || d = '_')
      match rest.drop run.length with
      | [] => true
      | '[' :: r2 =>
        let mid := r2.takeWhile (fun d => !(d = '[' ∨ d = ']' : Bool))
        !mid.isEmpty && (r2.drop mid.length == [']'])
      | _ => false
    else false

/-- The alternation loops of `validate_expr`: even positions must match
`TOKEN_PATTERN`, odd positions must be `+` or `-`. -/
def altSequenceOk : List Str → Bool
  | [] => true
  | [t] => tokenMatches t
  | t :: op :: rest =>
    tokenMatches t && (op = [ '+' ] ∨ op = [ '-' ] : Bool) && altSequenceOk rest

/-- Embedding of `validate_expr(expr)` from `src/libs/macro.py` lines
22..57: strip, reject the empty expression, split while keeping the
operators, strip each piece and drop the empty ones, require an odd
number of pieces alternating token/operator/token/…  The source also
returns an error message, elided here. -/
def validateExpr (expr0 : Str) : Bool :=
  let expr := stripStr expr0
  if expr.isEmpty then false
  else
    let tokens := ((splitKeepSigns expr).map stripStr).filter
      (fun p => !p.isEmpty)
    if tokens.isEmpty then false
    else if tokens.length % 2 = 0 then false
    else altSequenceOk tokens

/-- Does a full string match `^[A-Za-z_][A-Za-z0-9_]*$`, the macro-name
check of `validate_macro`. -/
def macroNameOk (n : Str) : Bool :=
  match n with
  | [] => false
  | c :: rest => (c.isAlpha || c = '_') && rest.all (fun d => d.isAlphanum || d = '_')

/-- Embedding of `validate_macro(macro)` from `src/libs/macro.py` lines
63..91: require an `=`, split at the first one, require a nonempty
well-formed name, then validate the expression side with
`validate_expr`. -/
def validateMacroStr (m : Str) : Bool :=
  if !m.contains '=' then false
  else
    let name := stripStr (m.takeWhile (fun c => !(c = '=' : Bool)))
    let expr := stripStr ((m.dropWhile (fun c => !(c = '=' : Bool))).drop 1)
    if name.isEmpty then false
    else if !macroNameOk name then false
    else validateExpr expr

example : validateExpr (chars "Dexterity+Melee[Swords]-2") = true := by decide

example : validateExpr (chars "Dexterity++Athletics") = false := by decide

example : validateExpr (chars "+Dexterity") = false := by decide

example : validateExpr (chars "Dexterity+") = false := by decide

example : validateExpr (chars "Melee[Swords") = false := by decide

example : validateMacroStr (chars "Atk=Dexterity+Melee[Swords]") = true := by
  decide

example : validateMacroStr (chars "Atk=Dexterity++2") = false := by decide

-- ---------------------------------------------------------------------------
-- cogs/macro.py, create_macro (lines 35..102) and update_macro (112..168)
-- ---------------------------------------------------------------------------

/-- Outcome of one `/macro new` or `/macro update` invocation, one
constructor per exit of the source handler.  The constructors after
`runtimeError` mirror branches that exist in the source text but are
unreachable: the handlers unpack the pair returned by
`resolve_dice_pool` into three variables, which raises `ValueError` and
lands in the handler's generic `except` clause before any of them can
run. -/
inductive MacroOutcome where
  | rejectedEmpty
  | rejectedWP
  | rejectedInvalid
  | runtimeError
  | rejectedUnresolved
  | rejectedExists
  | rejectedMissing
  | stored
deriving DecidableEq, Repr

/-- Embedding of the guard sequence of `create_macro(interaction, name,
macro_str)` from `src/cogs/macro.py` lines 35..102, for a loaded
character: reject a blank name or body, reject a body whose upper-cased
text contains `+WP`, reject when `validate_macro(f"{name}={macro_str}")`
fails, and then hit the triple unpack of `resolve_dice_pool`'s pair,
which raises before the duplicate check and the store are reached. -/
def createMacroCmd (name body : Str) (_char : Character)
    (_macros : List (Str × Str)) : MacroOutcome :=
  if (stripStr name).isEmpty || (stripStr body).isEmpty then .rejectedEmpty
  else if hasWPMarker body then .rejectedWP
  else if !validateMacroStr (name ++ [ '=' ] ++ body) then .rejectedInvalid
  else .runtimeError

/-- Embedding of the guard sequence of `update_macro(interaction, name,
macro_str)` from `src/cogs/macro.py` lines 112..168, for a loaded
character: reject a body whose upper-cased text contains `+WP`, reject
when `validate_macro` fails, and then hit the same raising triple
unpack before the existence check and the store. -/
def updateMacroCmd (name body : Str) (_char : Character)
    (_macros : List (Str × Str)) : MacroOutcome :=
  if hasWPMarker body then .rejectedWP
  else if !validateMacroStr (name ++ [ '=' ] ++ body) then .rejectedInvalid
  else .runtimeError

-- ---------------------------------------------------------------------------
-- cogs/character.py, hunt (lines 521..616): Willpower auto-success step
-- ---------------------------------------------------------------------------

/-- Embedding of the Willpower auto-success composition of `hunt`
(`src/cogs/character.py` lines 546..557): after the roll, when
Willpower was spent, a rolled 1 absorbs the Willpower success
(`ones_count -= 1`, no success added); otherwise one success is added
and one `*WP*` entry is appended to the display list. -/
def huntWPAdjust (successes : Int) (ones : Nat) (wpUsed : Bool)
    (fmt : List Str) : Int × Nat × List Str :=
  if wpUsed then
    if 0 < ones then (successes, ones - 1, fmt)
    else (successes + 1, ones, fmt ++ [chars "*WP*"])
  else (successes, ones, fmt)

-- ---------------------------------------------------------------------------
-- cogs/diceroller.py, roll (lines 56..198): the failure test on the pool
-- ---------------------------------------------------------------------------

/-- The `if total_pool == -1:` test of the `/roll` handler
(`src/cogs/diceroller.py` lines 96..107) by which callers decide that
resolution failed and answer `Unable to roll this pool`. -/
def rollPoolFailCheck (res : Int × Bool) : Bool := res.1 = -1

-- ---------------------------------------------------------------------------
-- Helper lemmas
-- ---------------------------------------------------------------------------

/-- Accumulator form of the success-counting fold of `roll_dice`. -/
lemma foldl_dieScore_eq (spec : Bool) (diff : Int) :
    ∀ (l : List Int) (a : Nat),
      l.foldl (fun acc v => acc + dieScore spec diff v) a =
        a + (l.map (dieScore spec diff)).sum := by
  intro l
  induction l with
  | nil => simp
  | cons v vs ih =>
    intro a
    simp only [List.foldl_cons, List.map_cons, List.sum_cons, ih]
    omega

/-- The pre-cancellation success count is zero exactly when no die
contributes a success. -/
lemma totalSuccesses_eq_zero_iff (spec : Bool) (diff : Int)
    (rolls : List Int) :
    totalSuccesses spec diff rolls = 0 ↔
      ∀ v ∈ rolls, dieScore spec diff v = 0 := by
  unfold totalSuccesses
  rw [foldl_dieScore_eq, Nat.zero_add, List.sum_eq_zero_iff]
  constructor
  · intro h v hv
    exact h _ (List.mem_map_of_mem _ hv)
  · intro h x hx
    rcases List.mem_map.mp hx with ⟨v, hv, rfl⟩
    exact h v hv

/-- With a supplied specialization, `check_entry` succeeds only by
matching it, so the success it reports always carries `used_spec =
true`. -/
lemma checkEntry_some_spec (tl sp : Str) (e : TraitEntry) (p : Int × Bool)
    (h : checkEntry tl (some sp) e = some p) : p.2 = true := by
  simp only [checkEntry] at h
  split at h
  · simp at h
  · split at h
    · simp at h
    · split at h
      · simp at h
      · split at h
        · cases h; rfl
        · simp at h

/-- With a supplied specialization, a successful scan always reports
`used_spec = true`. -/
lemma scanEntries_some_spec (tl sp : Str) (p : Int × Bool) :
    ∀ l : List TraitEntry, scanEntries tl (some sp) l = some p → p.2 = true := by
  intro l
  induction l with
  | nil => intro h; exact absurd h (by simp [scanEntries])
  | cons e es ih =>
    intro h
    unfold scanEntries at h
    cases hc : checkEntry tl (some sp) e with
    | some q =>
      rw [hc] at h
      cases h
      exact checkEntry_some_spec tl sp e p hc
    | none =>
      rw [hc] at h
      exact ih h

-- ---------------------------------------------------------------------------
-- C1
-- ---------------------------------------------------------------------------

/-- C1, counterexample: for the dice `[1,1,4,9,10]` at difficulty 6
with no specialization, the net success count is 0 and two dice rolled
a 1, yet `roll_dice` reports `isBotch = false` — the claimed
biconditional with the post-cancellation count fails. -/
theorem botch_postcancel_cex :
    finalSuxx false 6 [1, 1, 4, 9, 10] = 0 ∧
      0 < onesCount [1, 1, 4, 9, 10] ∧
      isBotchFlag false 6 [1, 1, 4, 9, 10] = false := by decide

/-- C1, amended: for every pool, specialization flag and difficulty,
`isBotch` is true iff at least one die rolled a 1 and no die counted as
a success before cancellation (the source tests the pre-cancellation
count); a botch still implies the net success count is 0, but not
conversely — in particular for `[1,1,4,9,10]` at difficulty 6 without
specialization the net count is 0 and `isBotch` is false. -/
theorem botch_precancel_characterisation (spec : Bool) (diff : Int)
    (rolls : List Int) :
    (isBotchFlag spec diff rolls = true ↔
      0 < onesCount rolls ∧ ∀ v ∈ rolls, dieScore spec diff v = 0)
    ∧ (isBotchFlag spec diff rolls = true → finalSuxx spec diff rolls = 0) := by
  constructor
  · unfold isBotchFlag
    rw [decide_eq_true_eq, totalSuccesses_eq_zero_iff]
    tauto
  · intro h
    unfold isBotchFlag at h
    rw [decide_eq_true_eq] at h
    unfold finalSuxx
    rw [h.1]
    have : ((0 : Nat) : Int) - (onesCount rolls : Int) ≤ 0 := by
      have := Int.ofNat_nonneg (onesCount rolls)
      omega
    simp [max_eq_left this]

/-- C1, witness for the amended theorem: a single rolled 1 is a botch,
and the theorem's second component yields its net success count 0. -/
theorem botch_precancel_characterisation_witness :
    finalSuxx false 6 [1] = 0 :=
  (botch_precancel_characterisation false 6 [1]).2 (by decide)

-- ---------------------------------------------------------------------------
-- C2
-- ---------------------------------------------------------------------------

/-- C2, counterexample: with the macro `Atk = Dexterity+Melee[Swords]`
stored, the expression `Atk+2` does not resolve like
`Dexterity+Melee[Swords]+2`: no token-level expansion happens, `Atk+2`
misses the whole-string macro lookup, `Atk` is treated as an unknown
trait and the whole expression fails, while the substituted expression
resolves to pool 7 with the specialization applied. -/
theorem macro_token_expansion_cex :
    resolveDicePool (chars "Atk+2") charA atkMacros = (-1, false) ∧
      resolveDicePool (chars "Dexterity+Melee[Swords]+2") charA atkMacros =
        (7, true) := by decide

/-- C2, amended: a stored macro is applied only when the entire roll
string equals the macro name exactly (case-sensitively); in that case
the roll resolves identically to resolving the macro's body directly
(provided the body is not itself a stored macro name).  A macro name
occurring as one token inside a larger expression is not expanded. -/
theorem macro_whole_string_expansion (name body : Str) (char : Character)
    (ms : List (Str × Str)) (h1 : lookupAssoc name ms = some body)
    (h2 : lookupAssoc body ms = none) :
    resolveDicePool name char ms = resolveDicePool body char ms := by
  simp only [resolveDicePool, h1, h2]

/-- C2, witness: rolling the bare macro name `Atk` resolves like
rolling its body. -/
theorem macro_whole_string_expansion_witness :
    resolveDicePool (chars "Atk") charA atkMacros =
      resolveDicePool (chars "Dexterity+Melee[Swords]") charA atkMacros :=
  macro_whole_string_expansion (chars "Atk") (chars "Dexterity+Melee[Swords]")
    charA atkMacros (by decide) (by decide)

-- ---------------------------------------------------------------------------
-- C3
-- ---------------------------------------------------------------------------

/-- C3, failing input evaluated: `charA` has current Willpower 5 and
maximum Willpower 5, yet the terms `Willpower` and `Willmax` are not
recognized by `get_character_value` — no pseudo-trait branch exists, the
aggregate's Willpower fields are never read, the lookup falls through
every category and the whole expression fails instead of resolving to 5. -/
theorem willpower_pseudo_trait_missing :
    charA.curr_willpower = 5 ∧ charA.max_willpower = 5 ∧
      getCharacterValue charA (chars "Willpower") none = (0, false, false) ∧
      getCharacterValue charA (chars "Willmax") none = (0, false, false) ∧
      sumMacroExpr (chars "Willpower") charA = (-1, false) ∧
      sumMacroExpr (chars "Willmax") charA = (-1, false) := by decide

-- ---------------------------------------------------------------------------
-- C4
-- ---------------------------------------------------------------------------

/-- C4, failing behaviour evaluated: `sum_macro` (and hence
`resolve_dice_pool`) returns only the pair `(total, used_spec)` — there
is no `specializationsApplied` component at all, so two resolutions
applying different specializations are indistinguishable, while the
source's own annotation and all call sites expect a triple. -/
theorem pool_resolution_pair_only :
    resolveDicePool (chars "Melee[Swords]") charB [] = (2, true) ∧
      resolveDicePool (chars "Melee[Axes]") charB [] = (2, true) ∧
      resolveDicePool (chars "Melee[Swords]") charB [] =
        resolveDicePool (chars "Melee[Axes]") charB [] := by decide

-- ---------------------------------------------------------------------------
-- C5
-- ---------------------------------------------------------------------------

/-- C5, counterexample: `charA` has Melee 2 with only the `Swords`
specialization; the term `Melee[NonexistentSpec]` does not fall back to
the base value 2 — the lookup rejects the entry, reports not-found, and
the whole expression fails, although the bare `Melee` resolves to 2. -/
theorem spec_mismatch_gates_cex :
    getCharacterValue charA (chars "Melee") (some (chars "NonexistentSpec")) =
        (0, false, false) ∧
      sumMacroExpr (chars "Melee[NonexistentSpec]") charA = (-1, false) ∧
      sumMacroExpr (chars "Melee") charA = (2, false) := by decide

/-- C5, amended: a supplied specialization is gating, not additive —
an entry matches only when the specialization matches, so for every
character, trait name and supplied specialization the lookup's
`used_spec` output equals its `found` output: resolution either applies
the specialization or fails to find the trait, and never uses the base
value with `used_spec = false`. -/
theorem spec_supplied_is_gating (char : Character) (t sp : Str) :
    (getCharacterValue char t (some sp)).2.2 =
      (getCharacterValue char t (some sp)).2.1 := by
  unfold getCharacterValue
  cases h : scanEntries (lowerStr t) (some sp) (allEntries char) with
  | none => rfl
  | some p =>
    have := scanEntries_some_spec (lowerStr t) sp p (allEntries char) h
    simp [this]

-- ---------------------------------------------------------------------------
-- C6
-- ---------------------------------------------------------------------------

/-- C6, counterexample: for the input `+W+WPP` with Willpower 5 the
single-pass replacements remove the occurrence at offset 2 and thereby
juxtapose `+W` with `P`, so the returned expression is `+WP` — it still
contains a case-insensitive `+WP` marker, contradicting the claim that
the marker is removed (the error/decrement/flag behaviour is as
claimed). -/
theorem willpower_marker_residual_cex :
    processWillpower (chars "+W+WPP") 5 = (some (chars "+WP", true), 4) ∧
      hasWPMarker (chars "+WP") = true := by decide

/-- C6, amended: `process_willpower` raises exactly when a
case-insensitive `+WP` marker is present and current Willpower is below
1, and the raise leaves Willpower unchanged; with the marker present
and Willpower at least 1 it removes the non-overlapping occurrences of
the four casings of the marker in one pass (which can leave a residual
marker formed by juxtaposition), strips the result, decrements
Willpower by exactly 1 and reports `willpowerSpent = true`; without the
marker it returns the expression unchanged, Willpower untouched and
`willpowerSpent = false`. -/
theorem process_willpower_spec (s : Str) (wp : Int) :
    ((processWillpower s wp).1 = none ↔ hasWPMarker s = true ∧ wp < 1)
    ∧ ((processWillpower s wp).1 = none → (processWillpower s wp).2 = wp)
    ∧ (hasWPMarker s = true → 1 ≤ wp →
        processWillpower s wp = (some (cleanWP s, true), wp - 1))
    ∧ (hasWPMarker s = false →
        processWillpower s wp = (some (s, false), wp)) := by
  unfold processWillpower
  rcases hm : hasWPMarker s with _ | _
  · simp
  · rcases lt_or_le wp 1 with hw | hw
    · simp [hw, not_le.mpr hw]
    · simp [hw, not_lt.mpr hw]

/-- C6, witness for the amended theorem: spending Willpower on
`Dexterity+WP` at Willpower 2 cleans the expression and decrements to
1. -/
theorem process_willpower_spec_witness :
    processWillpower (chars "Dexterity+WP") 2 =
      (some (cleanWP (chars "Dexterity+WP"), true), 2 - 1) :=
  (process_willpower_spec (chars "Dexterity+WP") 2).2.2.1 (by decide)
    (by decide)

-- ---------------------------------------------------------------------------
-- C7
-- ---------------------------------------------------------------------------

/-- C7, failing inputs evaluated: the validator rejects the double
operator `Dexterity++Athletics`, the trailing operator `Dexterity+` and
the unmatched bracket `Melee[Swords`, but `sum_macro` performs no such
validation and happily produces totals (5, 3 and 2 on `charA`) for all
three malformed expressions instead of failing. -/
theorem malformed_expr_resolves_bug :
    validateExpr (chars "Dexterity++Athletics") = false ∧
      sumMacroExpr (chars "Dexterity++Athletics") charA = (5, false) ∧
      validateExpr (chars "Dexterity+") = false ∧
      sumMacroExpr (chars "Dexterity+") charA = (3, false) ∧
      validateExpr (chars "Melee[Swords") = false ∧
      sumMacroExpr (chars "Melee[Swords") charA = (2, false) := by decide

-- ---------------------------------------------------------------------------
-- C8
-- ---------------------------------------------------------------------------

/-- C8: after any roll with Willpower spent, when the roller reported at
least one rolled 1 the composition step of `hunt` decrements the ones
count by one and adds no success and no display entry; when it reported
none it adds exactly one success and appends exactly the `*WP*` display
tag.  In particular a reported ones count of 1 drops to 0 with the
success count unchanged, and with ones count 0 the net successes grow
by exactly 1. -/
theorem hunt_willpower_composition (rolls : List Int) (spec : Bool)
    (diff : Int) (fmt : List Str) :
    (0 < (rollDice spec diff rolls).2.2 →
      huntWPAdjust (rollDice spec diff rolls).1 (rollDice spec diff rolls).2.2
          true fmt =
        ((rollDice spec diff rolls).1, (rollDice spec diff rolls).2.2 - 1,
          fmt))
    ∧ ((rollDice spec diff rolls).2.2 = 0 →
      huntWPAdjust (rollDice spec diff rolls).1 (rollDice spec diff rolls).2.2
          true fmt =
        ((rollDice spec diff rolls).1 + 1, 0, fmt ++ [chars "*WP*"])) := by
  constructor
  · intro h
    simp [huntWPAdjust, h]
  · intro h
    rw [h]
    simp [huntWPAdjust]

/-- C8, witness: a roll of a single 1 reports one rolled 1, which the
composition step absorbs without adding a success. -/
theorem hunt_willpower_composition_witness :
    huntWPAdjust (rollDice false 6 [1]).1 (rollDice false 6 [1]).2.2 true [] =
      ((rollDice false 6 [1]).1, (rollDice false 6 [1]).2.2 - 1, []) :=
  (hunt_willpower_composition [1] false 6 []).1 (by decide)

-- ---------------------------------------------------------------------------
-- C9
-- ---------------------------------------------------------------------------

/-- C9: for every macro name, body, character and macro table, a body
whose upper-cased text contains `+WP` is refused by both `/macro new`
and `/macro update` — regardless of whether the rest of the body
validates — and either handler stores a macro only if
`validate_macro(name=body)` accepted it. -/
theorem macro_store_wp_guard (name body : Str) (char : Character)
    (ms : List (Str × Str)) :
    (hasWPMarker body = true →
      createMacroCmd name body char ms ≠ MacroOutcome.stored ∧
        updateMacroCmd name body char ms ≠ MacroOutcome.stored)
    ∧ (createMacroCmd name body char ms = MacroOutcome.stored →
        validateMacroStr (name ++ [ '=' ] ++ body) = true)
    ∧ (updateMacroCmd name body char ms = MacroOutcome.stored →
        validateMacroStr (name ++ [ '=' ] ++ body) = true) := by
  unfold createMacroCmd updateMacroCmd
  refine ⟨fun hwp => ?_, ?_, ?_⟩ <;> split_ifs <;> simp_all

/-- C9, witness: the body `Strength+wp` carries the marker and is
refused by macro creation. -/
theorem macro_store_wp_guard_witness :
    createMacroCmd (chars "Atk") (chars "Strength+wp") charA [] ≠
      MacroOutcome.stored :=
  ((macro_store_wp_guard (chars "Atk") (chars "Strength+wp") charA []).1
    (by decide)).1

-- ---------------------------------------------------------------------------
-- C10
-- ---------------------------------------------------------------------------

/-- C10: `Dexterity-4` is a well-formed expression that legitimately
resolves to the total -1 on `charA` (Dexterity 3 minus 4), and the
resolver's return value for it is identical to its failure return (the
one produced for the unknown trait `NoSuchTrait`), so the `/roll`
handler's `total_pool == -1` test classifies the legitimately resolved
pool as a resolution failure. -/
theorem negative_pool_sentinel_collision :
    validateExpr (chars "Dexterity-4") = true ∧
      sumMacroExpr (chars "Dexterity-4") charA = (-1, false) ∧
      sumMacroExpr (chars "NoSuchTrait") charA = (-1, false) ∧
      sumMacroExpr (chars "Dexterity-4") charA =
        sumMacroExpr (chars "NoSuchTrait") charA ∧
      rollPoolFailCheck (sumMacroExpr (chars "Dexterity-4") charA) = true := by
  decide

end DarkWorld
